import Mathlib

/-!
Verification of the insight computation engine of a Shopify analytics backend.

The definitions below are a shallow embedding of
`backend/app/services/insights_engine.py`,
`backend/app/services/insight_generator.py` and
`backend/app/models/insight.py`:

* currency amounts and rates are exact rationals (`ℚ`), mirroring the
  decimal/float arithmetic of the source on the realistic inputs the
  analyzers see;
* Python dicts keyed by product id are association lists with
  insertion-order update semantics (`dictSet` updates in place, appends
  new keys);
* Python `list.sort()` is `List.insertionSort (· ≤ ·)` (ascending);
* the percentile indices `int(len * 0.8)`, `int(len * 0.2)`,
  `int(len * 0.6)` and `len // 2` of the source are `pctIdx len p`
  (= `p * len / 100` with natural floor division, which coincides with
  Python's float computation for every realistic list length);
* the SQL queries of `generate_insights` are modelled by their results:
  the order rows of the 30-day and 7-day windows and the product rows,
  packaged in `GenData`; the insight table is a `List Insight`;
* exceptions are modelled with `Except`: `upsert_insight` fails when the
  `scalar_one_or_none` lookup finds several rows, and `generate_insights`
  takes an optional injected failure point (`failAt`) standing for a
  query/flush step that throws; the surrounding `except Exception`
  handler of the source corresponds to collapsing the `Except` at the
  end of `generate_insights`.
-/

namespace ShopifyDash

/-- A JSON-ish value as stored in an insight payload. The only nested
shape the generators ever build is the list of product dicts of the
low-inventory alert, modelled by `ProdEntry`. -/
structure ProdEntry where
  id : String
  title : String
  inventory : Int
deriving DecidableEq

inductive JVal where
  | s (v : String)
  | i (v : Int)
  | q (v : Rat)
  | arr (v : List ProdEntry)
deriving DecidableEq

/-- One order line item, with the fields the two services read from the
raw dict: `product_id`, the nested `product.id`, `title`, `quantity`,
`amount`, and `originalTotalSet.shopMoney.amount` (here
`original_amount`; the get-with-default-0 of the source is collapsed
into the field). `none` models an absent key. -/
structure LineItem where
  product_id : Option String
  product : Option String
  title : Option String
  quantity : Int
  amount : Rat
  original_amount : Rat
deriving DecidableEq

/-- An order row. `line_items` is `Option` because the source guards with
`order.line_items or []`. -/
structure Order where
  processed_at : Int
  total_price : Rat
  line_items : Option (List LineItem)
  discount_codes : List String
deriving DecidableEq

/-- A product row, with the columns the analyzers read. -/
structure Product where
  id : String
  title : String
  status : String
  total_inventory : Int
  inventory_tracked : Bool
deriving DecidableEq

/-- A candidate insight dict as built by the `InsightsEngine` analyzers. -/
structure Candidate where
  type : String
  severity : String
  title : String
  action_summary : String
  expected_uplift : Option String
  confidence : Rat
  payload : List (String × JVal)
  admin_deep_link : Option String
deriving DecidableEq

/-- A persisted insight row (`app.models.insight.Insight`); `id` and
`created_at` are database-generated and not read by any modelled code
path, so they are omitted. -/
structure Insight where
  shop_id : String
  type : String
  severity : String
  title : String
  action_summary : String
  expected_uplift : Option String
  confidence : Rat
  payload : List (String × JVal)
  admin_deep_link : Option String
  dismissed_at : Option Int := none
  actioned_at : Option Int := none
  expires_at : Option Int := none
deriving DecidableEq

/-- Models `Insight.is_active`: false if dismissed, false if `expires_at` is in
the past, true otherwise. `now` stands for `datetime.utcnow()`. -/
def Insight.isActiveAt (i : Insight) (now : Int) : Bool :=
  if i.dismissed_at.isSome then false
  else
    match i.expires_at with
    | some e => if e < now then false else true
    | none => true

/-! ### Small utilities shared by the analyzers -/

/-- Python truthiness of an optional id string: `None` and `""` are falsy. -/
def truthyId : Option String → Option String
  | some s => if s = "" then none else some s
  | none => none

/-- Extraction `item.get("product_id") or (item.get("product") or ...).get("id")`
with the empty-dict defaults of the source collapsed
(the extraction used by `generate_insights`). -/
def genProductId (li : LineItem) : Option String :=
  match li.product_id with
  | some s => if s = "" then truthyId li.product else some s
  | none => truthyId li.product

/-- Models `order.line_items or []`. -/
def lineItemsOf (o : Order) : List LineItem :=
  o.line_items.getD []

/-- Dict lookup with the dict modelled as an insertion-ordered assoc list. -/
def dictFind (d : List (String × α)) (k : String) : Option α :=
  (d.find? (fun kv => kv.1 = k)).map (·.2)

def dictGet (d : List (String × α)) (k : String) (dflt : α) : α :=
  (dictFind d k).getD dflt

/-- Dict update: overwrite in place if the key exists, append otherwise. -/
def dictSet (d : List (String × α)) (k : String) (v : α) : List (String × α) :=
  if d.any (fun kv => kv.1 = k) then
    d.map (fun kv => if kv.1 = k then (k, v) else kv)
  else
    d ++ [(k, v)]

/-- Nearest-rank percentile index: `p * n / 100` in natural arithmetic.
This is the value of Python's `int(n * (p / 100))` for the lengths of
the lists involved (`n // 2` for `p = 50`). -/
def pctIdx (n p : Nat) : Nat := p * n / 100

/-- Floor of a rational, computable. -/
def ratFloor (x : Rat) : Int := x.num.fdiv (x.den : Int)

/-- Round half to even (Python's `round` and format rounding), exact on `ℚ`. -/
def rne (x : Rat) : Int :=
  let f := ratFloor x
  let frac := x - (f : Rat)
  if frac < 1 / 2 then f
  else if 1 / 2 < frac then f + 1
  else if f % 2 = 0 then f else f + 1

/-- Python `round(x, d)` on the exact rational value. -/
def pyround (x : Rat) (d : Nat) : Rat :=
  (rne (x * (10 : Rat) ^ d) : Rat) / (10 : Rat) ^ d

def padZeros (s : String) (d : Nat) : String :=
  String.mk (List.replicate (d - s.length) '0') ++ s

/-- Python fixed-point formatting `f"{x:.df}"` on the exact value. -/
def fmtF (x : Rat) (d : Nat) : String :=
  let scaled := rne (x * (10 : Rat) ^ d)
  if d = 0 then toString scaled
  else
    let sign := if scaled < 0 then "-" else ""
    let a := scaled.natAbs
    sign ++ toString (a / 10 ^ d) ++ "." ++ padZeros (toString (a % 10 ^ d)) d

/-- Computes `s.split("/")[-1]`. -/
def lastSeg (s : String) : String := (s.splitOn "/").getLastD s

/-! ### `InsightsEngine` analyzers (`insights_engine.py`) -/

/-- One line-item step of the per-product sales aggregation shared by
`_compute_understocked_winners` and `_compute_overstock_slow_movers`:
`sales_by_product[product_id] += item.get("quantity", 0)` when
`item.get("product", {}).get("id")` is truthy. -/
def addSale (d : List (String × Int)) (li : LineItem) : List (String × Int) :=
  match truthyId li.product with
  | some pid => dictSet d pid (dictGet d pid 0 + li.quantity)
  | none => d

def salesByProduct (orders : List Order) : List (String × Int) :=
  orders.foldl (fun d o => (lineItemsOf o).foldl addSale d) []

/-- Computes `sales_values.sort(); p50_threshold = sales_values[len(sales_values) // 2]`. -/
def salesP50 (orders : List Order) : Int :=
  let vals := List.insertionSort (· ≤ ·) ((salesByProduct orders).map (·.2))
  vals.getD (vals.length / 2) 0

/-- The understocked-winner candidate dict built for one firing product. -/
def uwCandidateOf (sbp : List (String × Int)) (p : Product) : Candidate :=
  let sales := dictGet sbp p.id 0
  let daily : Rat := (sales : Rat) / 30
  let days : Rat := (p.total_inventory : Rat) / daily
  { type := "understocked_winner"
    severity := "high"
    title := "Low stock alert: " ++ p.title.take 50
    action_summary :=
      "Only " ++ toString p.total_inventory ++ " units left (~" ++ fmtF days 0 ++
        " days). Consider restocking or enabling pre-orders to avoid stockout."
    expected_uplift := some "Prevent stockout revenue loss"
    confidence := 0.85
    payload :=
      [("product_id", .s p.id), ("product_title", .s p.title),
        ("current_inventory", .i p.total_inventory),
        ("daily_sales", .q (pyround daily 2)),
        ("days_remaining", .q (pyround days 1))]
    admin_deep_link := some ("/products/" ++ lastSeg p.id) }

/-- The per-product body of `_compute_understocked_winners`. -/
def understockedCandidate (p50 : Int) (sbp : List (String × Int)) (p : Product) :
    Option Candidate :=
  let sales := dictGet sbp p.id 0
  if sales < p50 then none
  else
    let daily : Rat := (sales : Rat) / 30
    if daily ≤ 0 then none
    else
      let days : Rat := (p.total_inventory : Rat) / daily
      if days < 7 then some (uwCandidateOf sbp p)
      else none

/-- Models `InsightsEngine._compute_understocked_winners`. -/
def compute_understocked_winners (products : List Product) (orders : List Order) :
    List Candidate :=
  let sbp := salesByProduct orders
  if sbp.isEmpty then []
  else products.filterMap (understockedCandidate (salesP50 orders) sbp)

/-- Computes `[p.total_inventory for p in products if p.total_inventory > 0]`. -/
def overstockInventories (products : List Product) : List Int :=
  (products.filter (fun p => 0 < p.total_inventory)).map (·.total_inventory)

/-- Computes `inventories.sort(); p80_inventory = inventories[int(len(inventories) * 0.8)]`. -/
def invP80 (products : List Product) : Int :=
  let l := List.insertionSort (· ≤ ·) (overstockInventories products)
  l.getD (pctIdx l.length 80) 0

/-- Computes `[sales_by_product.get(p.id, 0) for p in products]`, sorted, at index
`int(len * 0.2)`. -/
def salesP20 (products : List Product) (orders : List Order) : Int :=
  let l := List.insertionSort (· ≤ ·)
    (products.map (fun p => dictGet (salesByProduct orders) p.id 0))
  l.getD (pctIdx l.length 20) 0

/-- The overstock/slow-mover candidate dict built for one firing product. -/
def osCandidateOf (sbp : List (String × Int)) (p : Product) : Candidate :=
  let sales := dictGet sbp p.id 0
  { type := "overstock_slow_mover"
    severity := "medium"
    title := "Dead stock detected: " ++ p.title.take 50
    action_summary :=
      toString p.total_inventory ++ " units in stock but only " ++ toString sales ++
        " sold in 30 days. Consider BOGO offers, bundling, or targeted discounts to move inventory."
    expected_uplift := some "Clear dead stock value"
    confidence := 0.75
    payload :=
      [("product_id", .s p.id), ("product_title", .s p.title),
        ("current_inventory", .i p.total_inventory),
        ("units_sold_30d", .i sales)]
    admin_deep_link := some ("/products/" ++ lastSeg p.id) }

/-- The per-product body of `_compute_overstock_slow_movers`. -/
def overstockCandidate (p80 p20 : Int) (sbp : List (String × Int)) (p : Product) :
    Option Candidate :=
  let sales := dictGet sbp p.id 0
  if p.total_inventory > p80 ∧ sales ≤ p20 then some (osCandidateOf sbp p)
  else none

/-- Models `InsightsEngine._compute_overstock_slow_movers`. -/
def compute_overstock_slow_movers (products : List Product) (orders : List Order) :
    List Candidate :=
  let sbp := salesByProduct orders
  if overstockInventories products = [] ∨
      products.map (fun p => dictGet sbp p.id 0) = [] then []
  else
    products.filterMap (overstockCandidate (invP80 products) (salesP20 products orders) sbp)

/-- Per-product metrics accumulated by `_compute_coupon_cannibalization`. -/
structure PMetrics where
  title : String
  total_revenue : Rat
  discounted_orders : Nat
  total_orders : Nat
deriving DecidableEq

/-- One line-item step of the coupon metrics accumulation. `hasDiscount`
is the truthiness of `order.discount_codes`. -/
def addCoupon (hasDiscount : Bool) (d : List (String × PMetrics)) (li : LineItem) :
    List (String × PMetrics) :=
  match truthyId li.product with
  | none => d
  | some pid =>
    let m0 := (dictFind d pid).getD
      { title := li.title.getD "Unknown", total_revenue := 0,
        discounted_orders := 0, total_orders := 0 }
    dictSet d pid
      { m0 with
        total_revenue := m0.total_revenue + li.original_amount
        total_orders := m0.total_orders + 1
        discounted_orders := m0.discounted_orders + (if hasDiscount then 1 else 0) }

def productMetrics (orders : List Order) : List (String × PMetrics) :=
  orders.foldl
    (fun d o => (lineItemsOf o).foldl (addCoupon (!o.discount_codes.isEmpty)) d) []

/-- Computes `revenues.sort(); p60_revenue = revenues[int(len(revenues) * 0.6)]`. -/
def revP60 (orders : List Order) : Rat :=
  let l := List.insertionSort (· ≤ ·) ((productMetrics orders).map (·.2.total_revenue))
  l.getD (pctIdx l.length 60) 0

/-- The coupon-cannibalization candidate dict built for one firing entry. -/
def ccCandidateOf (kv : String × PMetrics) : Candidate :=
  let m := kv.2
  let rate : Rat := (m.discounted_orders : Rat) / (m.total_orders : Rat)
  { type := "coupon_cannibalization"
    severity := "medium"
    title := "Coupon overuse: " ++ m.title.take 50
    action_summary :=
      fmtF (rate * 100) 0 ++
        "% of orders use discounts, but this product sells well anyway. Tighten coupon eligibility rules to reduce margin leakage."
    expected_uplift := some "Reduce margin leakage"
    confidence := 0.7
    payload :=
      [("product_id", .s kv.1), ("product_title", .s m.title),
        ("discount_rate", .q (pyround rate 2)),
        ("total_revenue", .q (pyround m.total_revenue 2))]
    admin_deep_link := some "/discounts" }

/-- The per-entry body of `_compute_coupon_cannibalization`. -/
def couponCandidate (p60 : Rat) (kv : String × PMetrics) : Option Candidate :=
  let m := kv.2
  if m.total_orders = 0 then none
  else
    let rate : Rat := (m.discounted_orders : Rat) / (m.total_orders : Rat)
    if rate > 0.4 ∧ m.total_revenue > p60 then some (ccCandidateOf kv)
    else none

/-- Models `InsightsEngine._compute_coupon_cannibalization`. -/
def compute_coupon_cannibalization (orders : List Order) : List Candidate :=
  let pm := productMetrics orders
  if pm.map (·.2.total_revenue) = [] then []
  else pm.filterMap (couponCandidate (revP60 orders))

/-- Payload lookup used to state properties of emitted candidates. -/
def payloadGet (pl : List (String × JVal)) (k : String) : Option JVal :=
  (pl.find? (fun kv => kv.1 = k)).map (·.2)

/-! ### Reconciliation and orchestration (`insight_generator.py`) -/

/-- The keyword arguments of one `_upsert_insight` call. -/
structure UpArgs where
  insight_type : String
  severity : String
  title : String
  action_summary : String
  expected_uplift : Option String
  confidence : Rat
  payload : List (String × JVal)
  admin_deep_link : Option String := none
deriving DecidableEq

/-- The reconciliation lookup predicate of `_upsert_insight`: same shop,
same type, `dismissed_at IS NULL`. `expires_at` is not consulted. -/
def activeMatch (shopId ty : String) (i : Insight) : Bool :=
  i.shop_id = shopId && i.type = ty && i.dismissed_at.isNone

/-- In-place overwrite of the mutable fields of an existing insight row,
as performed by `_upsert_insight` when a match is found. -/
def applyUpdate (a : UpArgs) (i : Insight) : Insight :=
  { i with
    title := a.title
    action_summary := a.action_summary
    expected_uplift := a.expected_uplift
    confidence := a.confidence
    payload := a.payload
    admin_deep_link := a.admin_deep_link
    severity := a.severity }

/-- The fresh row built by `_upsert_insight` when no match is found.
`dismissed_at`, `actioned_at` and `expires_at` are left NULL. -/
def newInsight (shopId : String) (a : UpArgs) : Insight :=
  { shop_id := shopId
    type := a.insight_type
    severity := a.severity
    title := a.title
    action_summary := a.action_summary
    expected_uplift := a.expected_uplift
    confidence := a.confidence
    payload := a.payload
    admin_deep_link := a.admin_deep_link }

/-- Models `_upsert_insight`: `scalar_one_or_none` raises when several rows
match, modelled by `.error`; otherwise the matched row is updated in
place (return value 0) or a new row is appended (return value 1). -/
def upsert_insight (store : List Insight) (shopId : String) (a : UpArgs) :
    Except Unit (List Insight × Nat) :=
  match store.filter (activeMatch shopId a.insight_type) with
  | [] => .ok (store ++ [newInsight shopId a], 1)
  | [_] =>
    .ok (store.map (fun i => if activeMatch shopId a.insight_type i then applyUpdate a i else i), 0)
  | _ => .error ()

/-- The query results `generate_insights` reads: order rows of the
30-day window, order rows of the 7-day window (a subset of the former in
the database, unconstrained here), and the shop's product rows. -/
structure GenData where
  orders30 : List Order
  orders7 : List Order
  products : List Product

/-- The AOV-trend candidate (`--- Insight 1 ---` of `generate_insights`):
`some` exactly when the insight fires, carrying the upsert arguments. -/
def aovCandidate (d : GenData) : Option UpArgs :=
  let total_orders := d.orders30.length
  let total_revenue : Rat := (d.orders30.map Order.total_price).sum
  let aov_30d : Rat := if total_orders > 0 then total_revenue / total_orders else 0
  let recent_orders := d.orders7.length
  let recent_revenue : Rat := (d.orders7.map Order.total_price).sum
  let aov_7d : Rat := if recent_orders > 0 then recent_revenue / recent_orders else 0
  if aov_30d > 0 ∧ recent_orders ≥ 3 then
    let aov_change : Rat := ((aov_7d - aov_30d) / aov_30d) * 100
    if |aov_change| ≥ 5 then
      if aov_change > 0 then
        some
          { insight_type := "trend_detection"
            severity := "low"
            title := "Average order value is up " ++ fmtF aov_change 0 ++ "% this week"
            action_summary :=
              "Your AOV increased from $" ++ fmtF aov_30d 2 ++ " (30-day avg) to $" ++
                fmtF aov_7d 2 ++
                " (last 7 days). Consider promoting bundles or upsells to maintain this momentum."
            expected_uplift := some ("AOV target: $" ++ fmtF aov_30d 2)
            confidence := 0.85
            payload :=
              [("aov_30d", .q aov_30d), ("aov_7d", .q aov_7d),
                ("change_pct", .q (pyround aov_change 1))] }
      else
        some
          { insight_type := "trend_detection"
            severity := "medium"
            title := "Average order value dropped " ++ fmtF |aov_change| 0 ++ "% this week"
            action_summary :=
              "Your AOV fell from $" ++ fmtF aov_30d 2 ++ " (30-day avg) to $" ++
                fmtF aov_7d 2 ++
                " (last 7 days). Consider adding product bundles, free shipping thresholds, or cross-sell recommendations."
            expected_uplift := some ("AOV target: $" ++ fmtF aov_30d 2)
            confidence := 0.85
            payload :=
              [("aov_30d", .q aov_30d), ("aov_7d", .q aov_7d),
                ("change_pct", .q (pyround aov_change 1))] }
    else none
  else none

/-- Per-product revenue aggregation of `--- Insight 2 ---`. -/
structure RevAgg where
  title : String
  revenue : Rat
  quantity : Int
deriving DecidableEq

/-- One line-item step of the product-revenue aggregation. -/
def addRev (d : List (String × RevAgg)) (li : LineItem) : List (String × RevAgg) :=
  match genProductId li with
  | none => d
  | some pid =>
    let m0 := (dictFind d pid).getD
      { title := li.title.getD "Unknown", revenue := 0, quantity := 0 }
    dictSet d pid
      { m0 with revenue := m0.revenue + li.amount, quantity := m0.quantity + li.quantity }

def productRevenue (orders : List Order) : List (String × RevAgg) :=
  orders.foldl (fun d o => (lineItemsOf o).foldl addRev d) []

/-- The top-product candidate (`--- Insight 2 ---`). Python's `max` over
dict items keeps the first maximal entry in insertion order. -/
def topProductCandidate (d : GenData) : Option UpArgs :=
  let total_revenue : Rat := (d.orders30.map Order.total_price).sum
  match productRevenue d.orders30 with
  | [] => none
  | kv0 :: rest =>
    let top := (kv0 :: rest).foldl
      (fun best kv => if kv.2.revenue > best.2.revenue then kv else best) kv0
    let revenue_share : Rat :=
      if total_revenue > 0 then top.2.revenue / total_revenue * 100 else 0
    if revenue_share ≥ 20 then
      some
        { insight_type := "pricing_opportunity"
          severity := "medium"
          title :=
            "\"" ++ top.2.title ++ "\" drives " ++ fmtF revenue_share 0 ++ "% of your revenue"
          action_summary :=
            "Your top product generated $" ++ fmtF top.2.revenue 2 ++ " from " ++
              toString top.2.quantity ++
              " units. Consider protecting this revenue by maintaining stock levels and testing a small price increase."
          expected_uplift :=
            some ("+$" ++ fmtF (top.2.revenue * (0.05 : Rat)) 0 ++ "/month with 5% price test")
          confidence := 0.90
          payload :=
            [("product_id", .s top.1), ("product_title", .s top.2.title),
              ("revenue", .q top.2.revenue), ("units", .i top.2.quantity),
              ("revenue_share_pct", .q (pyround revenue_share 1))] }
    else none

/-- The low-stock filter of `--- Insight 3 ---`. -/
def lowStockOf (products : List Product) : List Product :=
  products.filter
    (fun p => p.inventory_tracked && p.total_inventory ≤ 5 && p.total_inventory > 0 &&
      p.status = "active")

/-- The low-inventory alert candidate (`--- Insight 3 ---`): one single
candidate summarizing up to 3 names (plus overflow count) and up to 5
payload entries. -/
def lowStockCandidate (d : GenData) : Option UpArgs :=
  let low := lowStockOf d.products
  if low.isEmpty then none
  else
    let names := (low.take 3).map Product.title
    let base := String.intercalate ", " names
    let names_str :=
      if low.length > 3 then base ++ " and " ++ toString (low.length - 3) ++ " more"
      else base
    some
      { insight_type := "inventory_alert"
        severity := "high"
        title :=
          toString low.length ++ " product" ++ (if low.length > 1 then "s" else "") ++
            " running low on stock"
        action_summary :=
          "Review inventory for: " ++ names_str ++
            ". These products have 5 or fewer units remaining."
        expected_uplift := some "Prevent stockout lost revenue"
        confidence := 0.95
        payload :=
          [("low_stock_count", .i low.length),
            ("products", .arr ((low.take 5).map
              (fun p => { id := p.id, title := p.title, inventory := p.total_inventory })))]
        admin_deep_link := some "/products?inventory_quantity_max=5" }

/-- Failure injection: `failAt = some k` throws at step `k` of the run:
0 = the 30-day stats query, 1 = the 7-day stats query, 2 = the
top-product query, 3 = the low-stock query, 4 = `session.flush()`. -/
def stepFails (failAt : Option Nat) (k : Nat) : Bool := failAt = some k

/-- Run one conditional upsert stage of `generate_insights` on the
running (count, store) state. An exception inside the upsert surfaces
as `.error` carrying the state at the time of the exception. -/
def runStage (shopId : String) (st : Nat × List Insight) (cand : Option UpArgs) :
    Except (Nat × List Insight) (Nat × List Insight) :=
  match cand with
  | none => .ok st
  | some a =>
    match upsert_insight st.2 shopId a with
    | .error _ => .error st
    | .ok (store', c) => .ok (st.1 + c, store')

/-- Models `generate_insights`. The `except Exception` boundary of the source
is the final `match`: whether the body finished normally (`.ok`) or
threw (`.error`), the caller observes the accumulated count and the
session state at that moment, and no exception propagates. -/
def generate_insights (shopId : String) (d : GenData) (store : List Insight)
    (failAt : Option Nat) : Nat × List Insight :=
  let res : Except (Nat × List Insight) (Nat × List Insight) :=
    if stepFails failAt 0 then .error (0, store)
    else if d.orders30.length = 0 then .ok (0, store)
    else if stepFails failAt 1 then .error (0, store)
    else
      match runStage shopId (0, store) (aovCandidate d) with
      | .error s => .error s
      | .ok s1 =>
        if stepFails failAt 2 then .error s1
        else
          match runStage shopId s1 (topProductCandidate d) with
          | .error s => .error s
          | .ok s2 =>
            if stepFails failAt 3 then .error s2
            else
              match runStage shopId s2 (lowStockCandidate d) with
              | .error s => .error s
              | .ok s3 => if stepFails failAt 4 then .error s3 else .ok s3
  match res with
  | .ok s => s
  | .error s => s

/-! ### Invariants used in the statements -/

/-- At most one `dismissed_at IS NULL` row per `(shop_id, type)`. -/
def atMostOneActive (store : List Insight) : Prop :=
  ∀ s t, (store.filter (activeMatch s t)).length ≤ 1

/-- Whether the store holds an active (`dismissed_at IS NULL`) row of
the given shop and type. -/
def hasActiveB (store : List Insight) (s t : String) : Bool :=
  store.any (activeMatch s t)

/-- The concrete scenario of C3: product A has inventory 3 and 30-day
sales 30 (daily rate 1, days remaining 3); product B has inventory 100
and sales 30 (days remaining 100). -/
def uwProductA : Product :=
  { id := "A", title := "Alpha", status := "active", total_inventory := 3,
    inventory_tracked := true }

def uwProductB : Product :=
  { id := "B", title := "Beta", status := "active", total_inventory := 100,
    inventory_tracked := true }

def uwOrdersEx : List Order :=
  [{ processed_at := 0, total_price := 0,
     line_items := some
       [{ product_id := none, product := some "A", title := some "Alpha",
          quantity := 30, amount := 0, original_amount := 0 },
        { product_id := none, product := some "B", title := some "Beta",
          quantity := 30, amount := 0, original_amount := 0 }],
     discount_codes := [] }]

/-- The concrete scenario of C4: product X has inventory 1000 (above the
P80 of positive inventories, 50) and 0 sales, with P20 of sales equal to
0 (products E and X both sold nothing). -/
def osProducts : List Product :=
  [{ id := "A", title := "A", status := "active", total_inventory := 10, inventory_tracked := true },
   { id := "B", title := "B", status := "active", total_inventory := 20, inventory_tracked := true },
   { id := "C", title := "C", status := "active", total_inventory := 30, inventory_tracked := true },
   { id := "D", title := "D", status := "active", total_inventory := 40, inventory_tracked := true },
   { id := "E", title := "E", status := "active", total_inventory := 50, inventory_tracked := true },
   { id := "X", title := "X", status := "active", total_inventory := 1000, inventory_tracked := true }]

def osOrdersEx : List Order :=
  [{ processed_at := 0, total_price := 0,
     line_items := some
       [{ product_id := none, product := some "A", title := some "A",
          quantity := 6, amount := 0, original_amount := 0 },
        { product_id := none, product := some "B", title := some "B",
          quantity := 7, amount := 0, original_amount := 0 },
        { product_id := none, product := some "C", title := some "C",
          quantity := 8, amount := 0, original_amount := 0 },
        { product_id := none, product := some "D", title := some "D",
          quantity := 9, amount := 0, original_amount := 0 }],
     discount_codes := [] }]

def osProductX : Product :=
  { id := "X", title := "X", status := "active", total_inventory := 1000,
    inventory_tracked := true }

/-- Spec-side reading of the coupon analyzer (claim C5): the number of
orders of the window the product appeared in. The code instead counts
one per line item; compare the counterexample below. -/
def specTotalOrders (orders : List Order) (pid : String) : Nat :=
  (orders.filter
    (fun o => (lineItemsOf o).any (fun li => truthyId li.product = some pid))).length

/-- Spec-side reading (claim C5): among the orders the product appeared
in, those carrying a discount code. -/
def specDiscountedOrders (orders : List Order) (pid : String) : Nat :=
  (orders.filter
    (fun o => !o.discount_codes.isEmpty &&
      (lineItemsOf o).any (fun li => truthyId li.product = some pid))).length

/-- The line-item revenue the engine accumulates for a product (spec and
code agree on this part). -/
def revenueOf (orders : List Order) (pid : String) : Rat :=
  match dictFind (productMetrics orders) pid with
  | some m => m.total_revenue
  | none => 0

/-- Counterexample data for C5: product X appears once in a discounted
order and twice (two line items) in a non-discounted order, so its
order-wise discount rate is 1/2 > 0.4 while the code's line-item-wise
rate is 1/3; products Y and Z only give the revenue distribution a P60
below X's revenue. -/
def ccOrdersBad : List Order :=
  [{ processed_at := 0, total_price := 0,
     line_items := some
       [{ product_id := none, product := some "X", title := some "X",
          quantity := 1, amount := 0, original_amount := 50 }],
     discount_codes := ["SAVE"] },
   { processed_at := 0, total_price := 0,
     line_items := some
       [{ product_id := none, product := some "X", title := some "X",
          quantity := 1, amount := 0, original_amount := 25 },
        { product_id := none, product := some "X", title := some "X",
          quantity := 1, amount := 0, original_amount := 25 },
        { product_id := none, product := some "Y", title := some "Y",
          quantity := 1, amount := 0, original_amount := 10 },
        { product_id := none, product := some "Z", title := some "Z",
          quantity := 1, amount := 0, original_amount := 5 }],
     discount_codes := [] }]

/-- Witness data for the amended C5: X has 3 line items, 2 of them in
discounted orders (rate 2/3 > 0.4) and revenue 160 above the P60 (3). -/
def ccOrdersGood : List Order :=
  [{ processed_at := 0, total_price := 0,
     line_items := some
       [{ product_id := none, product := some "X", title := some "X",
          quantity := 1, amount := 0, original_amount := 100 }],
     discount_codes := ["SAVE"] },
   { processed_at := 0, total_price := 0,
     line_items := some
       [{ product_id := none, product := some "X", title := some "X",
          quantity := 1, amount := 0, original_amount := 50 }],
     discount_codes := ["SAVE2"] },
   { processed_at := 0, total_price := 0,
     line_items := some
       [{ product_id := none, product := some "X", title := some "X",
          quantity := 1, amount := 0, original_amount := 10 },
        { product_id := none, product := some "Y", title := some "Y",
          quantity := 1, amount := 0, original_amount := 3 },
        { product_id := none, product := some "Z", title := some "Z",
          quantity := 1, amount := 0, original_amount := 2 }],
     discount_codes := [] }]

def ccMetricsX : PMetrics :=
  { title := "X", total_revenue := 160, discounted_orders := 2, total_orders := 3 }

/-- The keys of a dict model are pairwise distinct (Python dicts cannot
hold a key twice; `dictSet` preserves this). -/
def dictKeysNodup {α : Type} (d : List (String × α)) : Prop := (d.map (·.1)).Nodup

/-- Data for the generator claims: one 30-day order with no line items,
no 7-day orders, and a single tracked low-stock product, so only the
inventory alert fires. -/
def lowStockData : GenData :=
  { orders30 :=
      [{ processed_at := 0, total_price := 0, line_items := none, discount_codes := [] }],
    orders7 := [],
    products :=
      [{ id := "P", title := "Pencil", status := "active", total_inventory := 3,
         inventory_tracked := true }] }

/-- Data for C7: no order in the 30-day window, yet product data that
would fire the inventory alert if reached. -/
def zeroOrdersData : GenData :=
  { orders30 := [],
    orders7 := [],
    products :=
      [{ id := "P", title := "Pencil", status := "active", total_inventory := 3,
         inventory_tracked := true }] }

/-- A never-dismissed insight row whose `expires_at` is in the past. -/
def expiredInsight : Insight :=
  { shop_id := "s", type := "trend_detection", severity := "low", title := "old",
    action_summary := "old", expected_uplift := none, confidence := 0.5, payload := [],
    admin_deep_link := none, dismissed_at := none, actioned_at := none,
    expires_at := some 10 }

/-- Example upsert arguments of type `trend_detection`. -/
def trendArgsEx : UpArgs :=
  { insight_type := "trend_detection", severity := "medium", title := "new",
    action_summary := "new", expected_uplift := none, confidence := 0.85,
    payload := [], admin_deep_link := none }

/-! ### Helper lemmas -/

lemma getD_mem_of_lt {α : Type} (l : List α) (n : Nat) (d : α) (h : n < l.length) :
    l.getD n d ∈ l := by
  rw [List.getD_eq_getElem l d h]
  exact List.getElem_mem h

lemma insertionSort_getD_mem {α : Type} [LinearOrder α] (S : List α) (i : Nat) (d : α)
    (h : i < S.length) : (List.insertionSort (· ≤ ·) S).getD i d ∈ S := by
  have hlen : (List.insertionSort (· ≤ ·) S).length = S.length :=
    (List.perm_insertionSort (· ≤ ·) S).length_eq
  have := getD_mem_of_lt (List.insertionSort (· ≤ ·) S) i d (by rw [hlen]; exact h)
  exact ((List.perm_insertionSort (· ≤ ·) S).mem_iff).mp this

lemma pctIdx_lt (n p : Nat) (hn : 0 < n) (hp : p ∈ ([20, 50, 60, 80] : List Nat)) :
    pctIdx n p < n := by
  simp only [List.mem_cons, List.not_mem_nil, or_false] at hp
  rcases hp with rfl | rfl | rfl | rfl <;> · simp only [pctIdx]; omega

/-- C6: for every non-empty sequence `S` and every percentile `p` the
analyzers use (`p ∈ {20, 50, 60, 80}`), the nearest-rank threshold —
sort ascending, index at `pctIdx S.length p` (the value of Python's
`int(len * p/100)` and of `len // 2` for `p = 50`) — is in range, is a
value present in `S`, and on a length-1 sequence returns the sole
element. -/
theorem percentile_value_mem {α : Type} [LinearOrder α] (S : List α) (d : α) (p : Nat)
    (hS : S ≠ []) (hp : p ∈ ([20, 50, 60, 80] : List Nat)) :
    pctIdx S.length p < S.length
    ∧ (List.insertionSort (· ≤ ·) S).getD (pctIdx S.length p) d ∈ S
    ∧ (∀ x, S = [x] → (List.insertionSort (· ≤ ·) S).getD (pctIdx S.length p) d = x) := by
  have hn : 0 < S.length := List.length_pos.mpr hS
  have hidx := pctIdx_lt S.length p hn hp
  refine ⟨hidx, insertionSort_getD_mem S _ d hidx, ?_⟩
  rintro x rfl
  have h0 : pctIdx 1 p = 0 := by
    simp only [List.mem_cons, List.not_mem_nil, or_false] at hp
    rcases hp with rfl | rfl | rfl | rfl <;> rfl
  simp [h0, List.insertionSort, List.orderedInsert]

/-- Witness for C6 at `S = [5]`, `p = 50`. -/
theorem percentile_value_mem_witness :
    ([5] : List Int) ≠ [] ∧ (50 : Nat) ∈ ([20, 50, 60, 80] : List Nat) ∧
      (List.insertionSort (· ≤ ·) ([5] : List Int)).getD (pctIdx 1 50) 0 ∈ ([5] : List Int) :=
  ⟨by decide, by decide, (percentile_value_mem ([5] : List Int) 0 50 (by decide) (by decide)).2.1⟩

lemma dictGet_cases {α : Type} (dl : List (String × α)) (k : String) (dflt : α) :
    dictGet dl k dflt = dflt ∨ ∃ kv ∈ dl, kv.1 = k ∧ dictGet dl k dflt = kv.2 := by
  unfold dictGet dictFind
  cases h : dl.find? (fun kv => kv.1 = k) with
  | none => left; rfl
  | some kv =>
    right
    refine ⟨kv, List.mem_of_find?_eq_some h, ?_, rfl⟩
    simpa using List.find?_some h

lemma salesP50_nonpos (orders : List Order)
    (h : ∀ kv ∈ salesByProduct orders, kv.2 ≤ 0) : salesP50 orders ≤ 0 := by
  unfold salesP50
  set L := (salesByProduct orders).map (·.2) with hL
  set V := List.insertionSort (· ≤ ·) L with hV
  show V.getD (V.length / 2) 0 ≤ 0
  have hlen : V.length = L.length := (List.perm_insertionSort (· ≤ ·) L).length_eq
  rcases Nat.eq_zero_or_pos L.length with h0 | h0
  · rw [List.length_eq_zero] at h0
    simp [hV, h0, List.insertionSort]
  · have hlt : V.length / 2 < L.length := by omega
    have hmem : V.getD (V.length / 2) 0 ∈ L := insertionSort_getD_mem L _ 0 hlt
    rcases List.mem_map.mp hmem with ⟨kv, hkv, hval⟩
    rw [← hval]
    exact h kv hkv

lemma dictGet_nonpos_of_all (dl : List (String × Int)) (k : String)
    (h : ∀ kv ∈ dl, kv.2 ≤ 0) : dictGet dl k 0 ≤ 0 := by
  rcases dictGet_cases dl k 0 with h0 | ⟨kv, hkv, _, hval⟩
  · omega
  · rw [hval]; exact h kv hkv

lemma understocked_empty_of_nonpos (products : List Product) (orders : List Order)
    (h : ∀ kv ∈ salesByProduct orders, kv.2 ≤ 0) :
    compute_understocked_winners products orders = [] := by
  unfold compute_understocked_winners
  by_cases he : (salesByProduct orders).isEmpty
  · simp [he]
  · rw [if_neg he]
    rw [List.filterMap_eq_nil_iff]
    intro p _
    unfold understockedCandidate
    have hs : dictGet (salesByProduct orders) p.id 0 ≤ 0 := dictGet_nonpos_of_all _ _ h
    by_cases h1 : dictGet (salesByProduct orders) p.id 0 < salesP50 orders
    · simp [h1]
    · have hd : ((dictGet (salesByProduct orders) p.id 0 : Int) : Rat) / 30 ≤ 0 := by
        apply div_nonpos_iff.mpr
        right
        constructor
        · exact_mod_cast hs
        · norm_num
      rw [if_neg h1, if_pos hd]

lemma uw_payload_pid (sbp : List (String × Int)) (p : Product) :
    payloadGet (uwCandidateOf sbp p).payload "product_id" = some (.s p.id) := rfl

lemma uw_payload_inv (sbp : List (String × Int)) (p : Product) :
    payloadGet (uwCandidateOf sbp p).payload "current_inventory" =
      some (.i p.total_inventory) := rfl

/-- C3: assuming the product's aggregated 30-day sales are at least the
P50 threshold and the daily rate `sales/30` is positive, an
`understocked_winner` candidate for it (severity `high`, confidence
0.85) is emitted if and only if `current_inventory / (sales/30) < 7`;
and when no product sold anything, nothing is emitted. -/
theorem understocked_winner_spec :
    (∀ (products : List Product) (orders : List Order) (p : Product),
      p ∈ products →
      salesP50 orders ≤ dictGet (salesByProduct orders) p.id 0 →
      0 < dictGet (salesByProduct orders) p.id 0 →
      ((∃ c ∈ compute_understocked_winners products orders,
          c.type = "understocked_winner" ∧ c.severity = "high" ∧
          c.confidence = 0.85 ∧
          payloadGet c.payload "product_id" = some (.s p.id) ∧
          payloadGet c.payload "current_inventory" = some (.i p.total_inventory))
        ↔ (p.total_inventory : Rat) / (((dictGet (salesByProduct orders) p.id 0 : Int) : Rat) / 30) < 7))
    ∧ ∀ (products : List Product) (orders : List Order),
        (∀ kv ∈ salesByProduct orders, kv.2 ≤ 0) →
        compute_understocked_winners products orders = [] := by
  refine ⟨?_, understocked_empty_of_nonpos⟩
  intro products orders p hp hsig hpos
  have hne : ¬(salesByProduct orders).isEmpty := by
    intro habs
    rw [List.isEmpty_iff] at habs
    rw [habs] at hpos
    simp [dictGet, dictFind] at hpos
  have hcomp : compute_understocked_winners products orders
      = products.filterMap
          (understockedCandidate (salesP50 orders) (salesByProduct orders)) := by
    unfold compute_understocked_winners
    rw [if_neg hne]
  have hdaily : (0 : Rat) < ((dictGet (salesByProduct orders) p.id 0 : Int) : Rat) / 30 := by
    apply div_pos
    · exact_mod_cast hpos
    · norm_num
  constructor
  · rintro ⟨c, hc, -, -, -, hpid, hinv⟩
    rw [hcomp] at hc
    rcases List.mem_filterMap.mp hc with ⟨q, _, heq⟩
    simp only [understockedCandidate] at heq
    split_ifs at heq with h1 h2 h3
    cases heq
    rw [uw_payload_pid] at hpid
    rw [uw_payload_inv] at hinv
    have hid : q.id = p.id := by simpa using hpid
    have hiv : q.total_inventory = p.total_inventory := by simpa using hinv
    rw [hid, hiv] at h3
    exact h3
  · intro hdays
    have hnlt : ¬(dictGet (salesByProduct orders) p.id 0 < salesP50 orders) :=
      not_lt.mpr hsig
    have hnd : ¬(((dictGet (salesByProduct orders) p.id 0 : Int) : Rat) / 30 ≤ 0) :=
      not_le.mpr hdaily
    refine ⟨uwCandidateOf (salesByProduct orders) p, ?_, rfl, rfl, rfl,
      uw_payload_pid _ _, uw_payload_inv _ _⟩
    rw [hcomp]
    apply List.mem_filterMap.mpr
    refine ⟨p, hp, ?_⟩
    simp only [understockedCandidate]
    rw [if_neg hnlt, if_neg hnd, if_pos hdays]


/-- Witness for C3: inventory 3 with sales 30 fires (days remaining 3),
inventory 100 with sales 30 does not (days remaining 100). -/
theorem understocked_winner_spec_witness :
    (∃ c ∈ compute_understocked_winners [uwProductA, uwProductB] uwOrdersEx,
      c.type = "understocked_winner" ∧ c.severity = "high" ∧ c.confidence = 0.85 ∧
      payloadGet c.payload "product_id" = some (.s uwProductA.id) ∧
      payloadGet c.payload "current_inventory" = some (.i uwProductA.total_inventory))
    ∧ ¬(∃ c ∈ compute_understocked_winners [uwProductA, uwProductB] uwOrdersEx,
      c.type = "understocked_winner" ∧ c.severity = "high" ∧ c.confidence = 0.85 ∧
      payloadGet c.payload "product_id" = some (.s uwProductB.id) ∧
      payloadGet c.payload "current_inventory" = some (.i uwProductB.total_inventory)) := by
  have hvalA : dictGet (salesByProduct uwOrdersEx) uwProductA.id 0 = 30 := by decide
  have hvalB : dictGet (salesByProduct uwOrdersEx) uwProductB.id 0 = 30 := by decide
  constructor
  · refine (understocked_winner_spec.1 [uwProductA, uwProductB] uwOrdersEx uwProductA
      (by decide) (by decide) (by decide)).mpr ?_
    rw [hvalA]
    norm_num [uwProductA]
  · intro hex
    have hB := (understocked_winner_spec.1 [uwProductA, uwProductB] uwOrdersEx uwProductB
      (by decide) (by decide) (by decide)).mp hex
    rw [hvalB] at hB
    norm_num [uwProductB] at hB

lemma os_payload_pid (sbp : List (String × Int)) (p : Product) :
    payloadGet (osCandidateOf sbp p).payload "product_id" = some (.s p.id) := rfl

lemma os_payload_inv (sbp : List (String × Int)) (p : Product) :
    payloadGet (osCandidateOf sbp p).payload "current_inventory" =
      some (.i p.total_inventory) := rfl

lemma os_payload_units (sbp : List (String × Int)) (p : Product) :
    payloadGet (osCandidateOf sbp p).payload "units_sold_30d" =
      some (.i (dictGet sbp p.id 0)) := rfl

/-- C4: a product is flagged `overstock_slow_mover` (severity `medium`,
confidence 0.75) if and only if some product has positive inventory
(the P80 distribution is non-empty), its inventory is strictly above the
P80 of positive inventories, and its sales are at most the P20 of all
products' sales; when either distribution is empty, nothing is emitted. -/
theorem overstock_slow_mover_spec :
    (∀ (products : List Product) (orders : List Order) (p : Product),
      p ∈ products →
      ((∃ c ∈ compute_overstock_slow_movers products orders,
          c.type = "overstock_slow_mover" ∧ c.severity = "medium" ∧ c.confidence = 0.75 ∧
          payloadGet c.payload "product_id" = some (.s p.id) ∧
          payloadGet c.payload "current_inventory" = some (.i p.total_inventory) ∧
          payloadGet c.payload "units_sold_30d" =
            some (.i (dictGet (salesByProduct orders) p.id 0)))
        ↔ ((∃ q ∈ products, 0 < q.total_inventory) ∧
            invP80 products < p.total_inventory ∧
            dictGet (salesByProduct orders) p.id 0 ≤ salesP20 products orders)))
    ∧ ∀ (products : List Product) (orders : List Order),
        (overstockInventories products = [] ∨ products = []) →
        compute_overstock_slow_movers products orders = [] := by
  constructor
  · intro products orders p hp
    have hprodne : products ≠ [] := List.ne_nil_of_mem hp
    have hmapne : products.map (fun q => dictGet (salesByProduct orders) q.id 0) ≠ [] := by
      simpa using hprodne
    constructor
    · rintro ⟨c, hc, -, -, -, hpid, hinv, hunits⟩
      simp only [compute_overstock_slow_movers] at hc
      by_cases hg : overstockInventories products = [] ∨
          products.map (fun q => dictGet (salesByProduct orders) q.id 0) = []
      · rw [if_pos hg] at hc
        cases hc
      · rw [if_neg hg] at hc
        rcases List.mem_filterMap.mp hc with ⟨q, _, heq⟩
        simp only [overstockCandidate] at heq
        split_ifs at heq with h1
        cases heq
        rw [os_payload_pid] at hpid
        rw [os_payload_inv] at hinv
        have hid : q.id = p.id := by simpa using hpid
        have hiv : q.total_inventory = p.total_inventory := by simpa using hinv
        rw [hid, hiv] at h1
        have hinvne : overstockInventories products ≠ [] := by
          intro habs
          exact hg (Or.inl habs)
        refine ⟨?_, h1.1, h1.2⟩
        rcases List.exists_mem_of_ne_nil _ hinvne with ⟨v, hv⟩
        rcases List.mem_map.mp hv with ⟨r, hr, _⟩
        rcases List.mem_filter.mp hr with ⟨hrmem, hrpos⟩
        exact ⟨r, hrmem, by simpa using hrpos⟩
    · rintro ⟨⟨q, hq, hqpos⟩, hinv80, hsal20⟩
      have hinvne : overstockInventories products ≠ [] := by
        intro habs
        have : q.total_inventory ∈ overstockInventories products := by
          unfold overstockInventories
          exact List.mem_map_of_mem _ (List.mem_filter.mpr ⟨hq, by simpa using hqpos⟩)
        rw [habs] at this
        cases this
      refine ⟨osCandidateOf (salesByProduct orders) p, ?_, rfl, rfl, rfl,
        os_payload_pid _ _, os_payload_inv _ _, os_payload_units _ _⟩
      simp only [compute_overstock_slow_movers]
      rw [if_neg (by push_neg; exact ⟨hinvne, hmapne⟩)]
      apply List.mem_filterMap.mpr
      refine ⟨p, hp, ?_⟩
      simp only [overstockCandidate]
      rw [if_pos ⟨hinv80, hsal20⟩]
  · intro products orders hg
    simp only [compute_overstock_slow_movers]
    rcases hg with hg | hg
    · rw [if_pos (Or.inl hg)]
    · rw [if_pos (Or.inr (by rw [hg]; rfl))]




/-- Witness for C4: the zero-sales product with top-percentile inventory
fires while P20(sales) = 0. -/
theorem overstock_slow_mover_spec_witness :
    ∃ c ∈ compute_overstock_slow_movers osProducts osOrdersEx,
      c.type = "overstock_slow_mover" ∧ c.severity = "medium" ∧ c.confidence = 0.75 ∧
      payloadGet c.payload "product_id" = some (.s osProductX.id) ∧
      payloadGet c.payload "current_inventory" = some (.i osProductX.total_inventory) ∧
      payloadGet c.payload "units_sold_30d" =
        some (.i (dictGet (salesByProduct osOrdersEx) osProductX.id 0)) :=
  (overstock_slow_mover_spec.1 osProducts osOrdersEx osProductX
    (by decide)).mpr (by decide)

lemma cc_payload_pid (kv : String × PMetrics) :
    payloadGet (ccCandidateOf kv).payload "product_id" = some (.s kv.1) := rfl

lemma cc_payload_rate (kv : String × PMetrics) :
    payloadGet (ccCandidateOf kv).payload "discount_rate" =
      some (.q (pyround ((kv.2.discounted_orders : Rat) / (kv.2.total_orders : Rat)) 2)) := rfl

lemma cc_payload_rev (kv : String × PMetrics) :
    payloadGet (ccCandidateOf kv).payload "total_revenue" =
      some (.q (pyround kv.2.total_revenue 2)) := rfl

lemma dictSet_keys {α : Type} (d : List (String × α)) (k : String) (v : α) :
    (dictSet d k v).map (·.1) =
      if d.any (fun kv => kv.1 = k) then d.map (·.1) else d.map (·.1) ++ [k] := by
  unfold dictSet
  split_ifs with h
  · rw [List.map_map]
    apply List.map_congr_left
    intro kv _
    by_cases hk : kv.1 = k
    · simp [hk]
    · simp [hk]
  · simp

lemma dictSet_keys_nodup {α : Type} {d : List (String × α)} (k : String) (v : α)
    (h : dictKeysNodup d) : dictKeysNodup (dictSet d k v) := by
  unfold dictKeysNodup at h ⊢
  rw [dictSet_keys]
  split_ifs with hany
  · exact h
  · rw [List.nodup_append]
    refine ⟨h, List.nodup_singleton _, ?_⟩
    intro a ha hb
    simp only [List.mem_singleton] at hb
    subst hb
    rcases List.mem_map.mp ha with ⟨kv, hkv, hk1⟩
    rw [List.any_eq_true] at hany
    push_neg at hany  
    exact absurd (by simpa using hk1) (by simpa using hany kv hkv)

lemma addCoupon_keys_nodup (b : Bool) (d : List (String × PMetrics)) (li : LineItem)
    (h : dictKeysNodup d) : dictKeysNodup (addCoupon b d li) := by
  unfold addCoupon
  cases htr : truthyId li.product with
  | none => simpa using h
  | some pid => exact dictSet_keys_nodup _ _ h

lemma foldl_addCoupon_keys_nodup (b : Bool) (lis : List LineItem) :
    ∀ d, dictKeysNodup d → dictKeysNodup (lis.foldl (addCoupon b) d) := by
  induction lis with
  | nil => intro d h; exact h
  | cons li rest ih => intro d h; exact ih _ (addCoupon_keys_nodup b d li h)

lemma productMetrics_keys_nodup (orders : List Order) :
    dictKeysNodup (productMetrics orders) := by
  unfold productMetrics
  have hgen : ∀ (os : List Order) (d : List (String × PMetrics)), dictKeysNodup d →
      dictKeysNodup (os.foldl
        (fun d o => (lineItemsOf o).foldl (addCoupon (!o.discount_codes.isEmpty)) d) d) := by
    intro os
    induction os with
    | nil => intro d h; exact h
    | cons o rest ih => intro d h; exact ih _ (foldl_addCoupon_keys_nodup _ _ d h)
  exact hgen orders [] (by simp [dictKeysNodup])

lemma dictFind_of_mem_nodup {α : Type} (d : List (String × α)) (kv : String × α) (k : String)
    (hnd : dictKeysNodup d) (hmem : kv ∈ d) (hk : kv.1 = k) : dictFind d k = some kv.2 := by
  induction d with
  | nil => cases hmem
  | cons hd tl ih =>
    have hnd' : dictKeysNodup tl := by
      unfold dictKeysNodup at hnd ⊢
      simp only [List.map_cons, List.nodup_cons] at hnd
      exact hnd.2
    rcases List.mem_cons.mp hmem with heq | htl
    · subst heq
      unfold dictFind
      rw [List.find?_cons_of_pos _ (by simp [hk])]
      rfl
    · have hne : ¬(hd.1 = k) := by
        intro habs
        unfold dictKeysNodup at hnd
        simp only [List.map_cons, List.nodup_cons] at hnd
        apply hnd.1
        rw [habs, ← hk]
        exact List.mem_map_of_mem _ htl
      unfold dictFind
      rw [List.find?_cons_of_neg _ (by simp [hne])]
      exact ih hnd' htl

lemma dictFind_some_mem {α : Type} {d : List (String × α)} {k : String} {v : α}
    (h : dictFind d k = some v) : ∃ kv ∈ d, kv.1 = k ∧ kv.2 = v := by
  unfold dictFind at h
  cases hf : d.find? (fun kv => kv.1 = k) with
  | none => rw [hf] at h; cases h
  | some kv =>
    rw [hf] at h
    exact ⟨kv, List.mem_of_find?_eq_some hf, by simpa using List.find?_some hf,
      by simpa using h⟩

/-- C5 (amended): with `total_orders` counting the line items referencing
the product (one per line item, not one per order) and
`discounted_orders` those of the line items whose order carries a
discount code, a `coupon_cannibalization` candidate (severity `medium`,
confidence 0.7) for a product with metrics `m` is emitted if and only if
`discounted_orders/total_orders > 0.4` and `total_revenue > P60`. -/
theorem coupon_cannibalization_amended :
    ∀ (orders : List Order) (pid : String) (m : PMetrics),
      dictFind (productMetrics orders) pid = some m →
      ((∃ c ∈ compute_coupon_cannibalization orders,
          c.type = "coupon_cannibalization" ∧ c.severity = "medium" ∧ c.confidence = 0.7 ∧
          payloadGet c.payload "product_id" = some (.s pid) ∧
          payloadGet c.payload "discount_rate" =
            some (.q (pyround ((m.discounted_orders : Rat) / (m.total_orders : Rat)) 2)) ∧
          payloadGet c.payload "total_revenue" = some (.q (pyround m.total_revenue 2)))
        ↔ ((m.discounted_orders : Rat) / (m.total_orders : Rat) > 0.4 ∧
            m.total_revenue > revP60 orders)) := by
  intro orders pid m hfind
  rcases dictFind_some_mem hfind with ⟨kv, hkvmem, hkvk, hkvv⟩
  subst hkvv
  have hguard : ¬((productMetrics orders).map (·.2.total_revenue) = []) := by
    intro habs
    rw [List.map_eq_nil_iff] at habs
    rw [habs] at hkvmem
    cases hkvmem
  have hcomp : compute_coupon_cannibalization orders
      = (productMetrics orders).filterMap (couponCandidate (revP60 orders)) := by
    simp only [compute_coupon_cannibalization]
    rw [if_neg hguard]
  constructor
  · rintro ⟨c, hc, -, -, -, hpid, hrate, hrev⟩
    rw [hcomp] at hc
    rcases List.mem_filterMap.mp hc with ⟨kv2, hkv2, heq⟩
    simp only [couponCandidate] at heq
    split_ifs at heq with h0 h1
    cases heq
    rw [cc_payload_pid] at hpid
    have hk2 : kv2.1 = pid := by simpa using hpid
    have hfind2 : dictFind (productMetrics orders) pid = some kv2.2 :=
      dictFind_of_mem_nodup _ _ _ (productMetrics_keys_nodup orders) hkv2 hk2
    rw [hfind] at hfind2
    have hm : kv2.2 = kv.2 := by simpa using hfind2.symm
    rw [hm] at h1
    exact h1
  · rintro ⟨hrate, hrev⟩
    have h0 : ¬(kv.2.total_orders = 0) := by
      intro habs
      rw [habs] at hrate
      norm_num at hrate
    refine ⟨ccCandidateOf kv, ?_, rfl, rfl, rfl, ?_, ?_, ?_⟩
    · rw [hcomp]
      apply List.mem_filterMap.mpr
      refine ⟨kv, hkvmem, ?_⟩
      simp only [couponCandidate]
      rw [if_neg h0, if_pos ⟨hrate, hrev⟩]
    · rw [cc_payload_pid, hkvk]
    · rw [cc_payload_rate]
    · rw [cc_payload_rev]

unseal Rat.add Rat.mul Rat.inv Rat.sub Rat.ofScientific in
/-- C5 counterexample: on `ccOrdersBad`, the order-wise discount rate of
product X is 1/2 > 0.4 and its revenue exceeds P60, so the claim says X
must be flagged, yet the code (counting line items: rate 1/3) emits no
candidate for X. -/
theorem coupon_claim_counterexample :
    ((specDiscountedOrders ccOrdersBad "X" : Rat) / (specTotalOrders ccOrdersBad "X" : Rat)
        > 0.4
      ∧ revenueOf ccOrdersBad "X" > revP60 ccOrdersBad)
    ∧ ∀ c ∈ compute_coupon_cannibalization ccOrdersBad,
        payloadGet c.payload "product_id" ≠ some (.s "X") := by
  decide

unseal Rat.add Rat.mul Rat.inv Rat.sub Rat.ofScientific in
/-- Witness for the amended C5 at `ccOrdersGood`: X has line-item rate
2/3 > 0.4 and revenue 160 above the P60 of 3, so it is flagged. -/
theorem coupon_cannibalization_amended_witness :
    ∃ c ∈ compute_coupon_cannibalization ccOrdersGood,
      c.type = "coupon_cannibalization" ∧ c.severity = "medium" ∧ c.confidence = 0.7 ∧
      payloadGet c.payload "product_id" = some (.s "X") ∧
      payloadGet c.payload "discount_rate" =
        some (.q (pyround
          ((ccMetricsX.discounted_orders : Rat) / (ccMetricsX.total_orders : Rat)) 2)) ∧
      payloadGet c.payload "total_revenue" = some (.q (pyround ccMetricsX.total_revenue 2)) :=
  (coupon_cannibalization_amended ccOrdersGood "X" ccMetricsX (by decide)).mpr (by decide)

lemma activeMatch_applyUpdate (s t : String) (a : UpArgs) (i : Insight) :
    activeMatch s t (applyUpdate a i) = activeMatch s t i := rfl

lemma activeMatch_updateFn (shopId ty s t : String) (a : UpArgs) (x : Insight) :
    activeMatch s t (if activeMatch shopId ty x = true then applyUpdate a x else x)
      = activeMatch s t x := by
  by_cases hx : activeMatch shopId ty x = true
  · rw [if_pos hx]
    rfl
  · rw [if_neg hx]

lemma filter_nil_of_hasActiveB_false (store : List Insight) (s t : String)
    (h : hasActiveB store s t = false) : store.filter (activeMatch s t) = [] := by
  rw [List.filter_eq_nil_iff]
  intro x hx
  unfold hasActiveB at h
  rw [List.any_eq_false] at h
  exact h x hx

lemma upsert_found (store : List Insight) (shopId : String) (a : UpArgs)
    (h1 : atMostOneActive store) (h2 : hasActiveB store shopId a.insight_type = true) :
    upsert_insight store shopId a =
      .ok (store.map (fun i => if activeMatch shopId a.insight_type i then applyUpdate a i
        else i), 0) := by
  have hne : store.filter (activeMatch shopId a.insight_type) ≠ [] := by
    rcases List.any_eq_true.mp h2 with ⟨x, hx, hmatch⟩
    intro habs
    have hmem : x ∈ store.filter (activeMatch shopId a.insight_type) :=
      List.mem_filter.mpr ⟨hx, hmatch⟩
    rw [habs] at hmem
    cases hmem
  have hone : ∃ b, store.filter (activeMatch shopId a.insight_type) = [b] := by
    have hpos : 0 < (store.filter (activeMatch shopId a.insight_type)).length :=
      List.length_pos.mpr hne
    have hlen := h1 shopId a.insight_type
    exact List.length_eq_one.mp (by omega)
  rcases hone with ⟨b, hb⟩
  unfold upsert_insight
  rw [hb]

lemma upsert_notfound (store : List Insight) (shopId : String) (a : UpArgs)
    (h2 : hasActiveB store shopId a.insight_type = false) :
    upsert_insight store shopId a = .ok (store ++ [newInsight shopId a], 1) := by
  have hnil := filter_nil_of_hasActiveB_false store shopId a.insight_type h2
  unfold upsert_insight
  rw [hnil]

lemma upsert_count_le (store : List Insight) (shopId : String) (a : UpArgs)
    (store2 : List Insight) (c : Nat)
    (h : upsert_insight store shopId a = .ok (store2, c)) : c ≤ 1 := by
  unfold upsert_insight at h
  split at h
  · simp only [Except.ok.injEq, Prod.mk.injEq] at h
    omega
  · simp only [Except.ok.injEq, Prod.mk.injEq] at h
    omega
  · cases h

lemma atMostOneActive_update (store : List Insight) (shopId ty : String) (a : UpArgs)
    (h : atMostOneActive store) :
    atMostOneActive
      (store.map (fun i => if activeMatch shopId ty i then applyUpdate a i else i)) := by
  intro s t
  rw [List.filter_map, List.length_map]
  have hcong : store.filter
      ((activeMatch s t) ∘ (fun i => if activeMatch shopId ty i then applyUpdate a i else i))
      = store.filter (activeMatch s t) := by
    apply List.filter_congr
    intro x _
    exact activeMatch_updateFn shopId ty s t a x
  rw [hcong]
  exact h s t

lemma activeMatch_newInsight_self (shopId : String) (a : UpArgs) :
    activeMatch shopId a.insight_type (newInsight shopId a) = true := by
  unfold activeMatch newInsight
  simp

lemma atMostOneActive_insert (store : List Insight) (shopId : String) (a : UpArgs)
    (h : atMostOneActive store) (h2 : hasActiveB store shopId a.insight_type = false) :
    atMostOneActive (store ++ [newInsight shopId a]) := by
  intro s t
  rw [List.filter_append, List.length_append]
  by_cases hs : s = shopId ∧ t = a.insight_type
  · rcases hs with ⟨hs1, hs2⟩
    rw [hs1, hs2]
    rw [filter_nil_of_hasActiveB_false store shopId a.insight_type h2]
    have := List.length_filter_le (activeMatch shopId a.insight_type) [newInsight shopId a]
    simp only [List.length_nil, List.length_cons] at *
    omega
  · have hnew : activeMatch s t (newInsight shopId a) = false := by
      by_contra hb
      rw [Bool.not_eq_false] at hb
      unfold activeMatch newInsight at hb
      simp only [Bool.and_eq_true, decide_eq_true_eq] at hb
      exact hs ⟨hb.1.1.symm, hb.1.2.symm⟩
    have hnil : List.filter (activeMatch s t) [newInsight shopId a] = [] := by
      simp [List.filter, hnew]
    rw [hnil]
    have := h s t
    simp only [List.length_nil]
    omega

lemma hasActiveB_update_iff (store : List Insight) (shopId ty s t : String) (a : UpArgs) :
    hasActiveB (store.map (fun i => if activeMatch shopId ty i then applyUpdate a i else i)) s t
      = hasActiveB store s t := by
  unfold hasActiveB
  rw [List.any_map]
  congr 1
  funext x
  exact activeMatch_updateFn shopId ty s t a x

lemma hasActiveB_append (store : List Insight) (j : Insight) (s t : String) :
    hasActiveB (store ++ [j]) s t = (hasActiveB store s t || activeMatch s t j) := by
  unfold hasActiveB
  rw [List.any_append]
  simp

/-- Behaviour of `_upsert_insight` on a store satisfying the at-most-one
invariant: it never raises, preserves the invariant, returns 0 or 1,
never deactivates anything, leaves an active row of the upserted type,
grows the store only when it returns 1, and returns 0 exactly on the
update-in-place path. -/
lemma upsert_ok (store : List Insight) (shopId : String) (a : UpArgs)
    (h1 : atMostOneActive store) :
    ∃ store2 c, upsert_insight store shopId a = .ok (store2, c) ∧
      atMostOneActive store2 ∧ c ≤ 1 ∧
      (∀ s t, hasActiveB store s t = true → hasActiveB store2 s t = true) ∧
      hasActiveB store2 shopId a.insight_type = true ∧
      (c = 0 → store2.length = store.length) ∧
      (hasActiveB store shopId a.insight_type = true → c = 0) := by
  cases hact : hasActiveB store shopId a.insight_type with
  | true =>
    refine ⟨_, 0, upsert_found store shopId a h1 hact,
      atMostOneActive_update store _ _ a h1, by omega, ?_, ?_, ?_, fun _ => rfl⟩
    · intro s t h
      rw [hasActiveB_update_iff]
      exact h
    · rw [hasActiveB_update_iff]
      exact hact
    · intro _
      exact List.length_map _ _
  | false =>
    refine ⟨_, 1, upsert_notfound store shopId a hact,
      atMostOneActive_insert store shopId a h1 hact, by omega, ?_, ?_, ?_, ?_⟩
    · intro s t h
      rw [hasActiveB_append, h]
      rfl
    · rw [hasActiveB_append, activeMatch_newInsight_self]
      simp
    · intro h0
      cases h0
    · intro h
      cases h

/-- Behaviour of one conditional upsert stage of `generate_insights` on
an invariant-satisfying state. -/
lemma runStage_ok (shopId : String) (st : Nat × List Insight) (cand : Option UpArgs)
    (h1 : atMostOneActive st.2) :
    ∃ st2, runStage shopId st cand = .ok st2 ∧
      atMostOneActive st2.2 ∧ st.1 ≤ st2.1 ∧ st2.1 ≤ st.1 + 1 ∧
      (∀ s t, hasActiveB st.2 s t = true → hasActiveB st2.2 s t = true) ∧
      (∀ a, cand = some a → hasActiveB st2.2 shopId a.insight_type = true) ∧
      ((∀ a, cand = some a → hasActiveB st.2 shopId a.insight_type = true) →
        st2.1 = st.1 ∧ st2.2.length = st.2.length) := by
  cases cand with
  | none =>
    refine ⟨st, rfl, h1, le_refl _, by omega, fun s t h => h, ?_, ?_⟩
    · intro a ha
      cases ha
    · intro _
      exact ⟨rfl, rfl⟩
  | some a =>
    rcases upsert_ok st.2 shopId a h1 with
      ⟨store2, c, hu, hinv2, hc, hmono, hself, hlen, hzero⟩
    refine ⟨(st.1 + c, store2), ?_, hinv2, by omega, by omega, hmono, ?_, ?_⟩
    · simp only [runStage, hu]
    · intro a2 ha2
      injection ha2 with ha2
      subst ha2
      exact hself
    · intro hpre
      have hc0 : c = 0 := hzero (hpre a rfl)
      subst hc0
      exact ⟨by omega, hlen rfl⟩

lemma stepFails_none (k : Nat) : stepFails none k = false := rfl

lemma stepFails_some (j i : Nat) : stepFails (some j) i = decide (j = i) := by
  unfold stepFails
  exact decide_eq_decide.mpr (by simp)

lemma inv_generate (shopId : String) (d : GenData) (store : List Insight)
    (failAt : Option Nat) (h1 : atMostOneActive store) :
    atMostOneActive (generate_insights shopId d store failAt).2 := by
  by_cases h0 : stepFails failAt 0 = true
  · have hr : generate_insights shopId d store failAt = (0, store) := by
      simp [generate_insights, h0]
    rw [hr]
    exact h1
  by_cases hlen : d.orders30.length = 0
  · have hr : generate_insights shopId d store failAt = (0, store) := by
      simp [generate_insights, h0, hlen]
    rw [hr]
    exact h1
  by_cases hf1 : stepFails failAt 1 = true
  · have hr : generate_insights shopId d store failAt = (0, store) := by
      simp [generate_insights, h0, hlen, hf1]
    rw [hr]
    exact h1
  obtain ⟨s1, he1, hinv1, -, -, -, -, -⟩ := runStage_ok shopId (0, store) (aovCandidate d) h1
  by_cases hf2 : stepFails failAt 2 = true
  · have hr : generate_insights shopId d store failAt = s1 := by
      simp [generate_insights, h0, hlen, hf1, he1, hf2]
    rw [hr]
    exact hinv1
  obtain ⟨s2, he2, hinv2, -, -, -, -, -⟩ :=
    runStage_ok shopId s1 (topProductCandidate d) hinv1
  by_cases hf3 : stepFails failAt 3 = true
  · have hr : generate_insights shopId d store failAt = s2 := by
      simp [generate_insights, h0, hlen, hf1, he1, hf2, he2, hf3]
    rw [hr]
    exact hinv2
  obtain ⟨s3, he3, hinv3, -, -, -, -, -⟩ :=
    runStage_ok shopId s2 (lowStockCandidate d) hinv2
  by_cases hf4 : stepFails failAt 4 = true
  · have hr : generate_insights shopId d store failAt = s3 := by
      simp [generate_insights, h0, hlen, hf1, he1, hf2, he2, hf3, he3, hf4]
    rw [hr]
    exact hinv3
  · have hr : generate_insights shopId d store failAt = s3 := by
      simp [generate_insights, h0, hlen, hf1, he1, hf2, he2, hf3, he3, hf4]
    rw [hr]
    exact hinv3

/-- Characterization of a no-failure `generate_insights` run on an
invariant-satisfying store: the invariant is preserved, active rows are
never deactivated, every fired candidate type ends with an active row,
and when every fired candidate type already has an active row the run
creates nothing (count 0, unchanged store size). -/
lemma generate_insights_none_run (shopId : String) (d : GenData) (store : List Insight)
    (h1 : atMostOneActive store) :
    atMostOneActive (generate_insights shopId d store none).2 ∧
    (∀ s t, hasActiveB store s t = true →
      hasActiveB (generate_insights shopId d store none).2 s t = true) ∧
    (d.orders30.length ≠ 0 →
      ∀ a, (aovCandidate d = some a ∨ topProductCandidate d = some a ∨
          lowStockCandidate d = some a) →
        hasActiveB (generate_insights shopId d store none).2 shopId a.insight_type = true) ∧
    ((∀ a, (aovCandidate d = some a ∨ topProductCandidate d = some a ∨
          lowStockCandidate d = some a) →
        hasActiveB store shopId a.insight_type = true) →
      (generate_insights shopId d store none).1 = 0 ∧
      (generate_insights shopId d store none).2.length = store.length) := by
  by_cases hlen : d.orders30.length = 0
  · have hr : generate_insights shopId d store none = (0, store) := by
      simp [generate_insights, stepFails_none, hlen]
    rw [hr]
    exact ⟨h1, fun s t h => h, fun hne => (hne hlen).elim, fun _ => ⟨rfl, rfl⟩⟩
  · obtain ⟨s1, he1, hinv1, -, -, hmono1, hself1, hrefresh1⟩ :=
      runStage_ok shopId (0, store) (aovCandidate d) h1
    obtain ⟨s2, he2, hinv2, -, -, hmono2, hself2, hrefresh2⟩ :=
      runStage_ok shopId s1 (topProductCandidate d) hinv1
    obtain ⟨s3, he3, hinv3, -, -, hmono3, hself3, hrefresh3⟩ :=
      runStage_ok shopId s2 (lowStockCandidate d) hinv2
    have hr : generate_insights shopId d store none = s3 := by
      simp [generate_insights, stepFails_none, hlen, he1, he2, he3]
    rw [hr]
    refine ⟨hinv3, ?_, ?_, ?_⟩
    · intro s t h
      exact hmono3 s t (hmono2 s t (hmono1 s t h))
    · intro _ a ha
      rcases ha with ha | ha | ha
      · exact hmono3 _ _ (hmono2 _ _ (hself1 a ha))
      · exact hmono3 _ _ (hself2 a ha)
      · exact hself3 a ha
    · intro hpre
      have hp1 : ∀ a, aovCandidate d = some a →
          hasActiveB (0, store).2 shopId a.insight_type = true :=
        fun a ha => hpre a (Or.inl ha)
      obtain ⟨hc1, hl1⟩ := hrefresh1 hp1
      have hp2 : ∀ a, topProductCandidate d = some a →
          hasActiveB s1.2 shopId a.insight_type = true :=
        fun a ha => hmono1 _ _ (hpre a (Or.inr (Or.inl ha)))
      obtain ⟨hc2, hl2⟩ := hrefresh2 hp2
      have hp3 : ∀ a, lowStockCandidate d = some a →
          hasActiveB s2.2 shopId a.insight_type = true :=
        fun a ha => hmono2 _ _ (hmono1 _ _ (hpre a (Or.inr (Or.inr ha))))
      obtain ⟨hc3, hl3⟩ := hrefresh3 hp3
      have hc1' : s1.1 = 0 := hc1
      have hl1' : s1.2.length = store.length := hl1
      constructor
      · omega
      · omega

/-- C1: on a store with at most one active insight per `(shop_id, type)`,
`_upsert_insight` overwrites the mutable fields of the existing active
row in place and returns 0 when one exists, inserts a new row and
returns 1 otherwise, and preserves the invariant; consequently any
number of orchestration passes (arbitrary data and failure injections)
preserves the at-most-one-active invariant. -/
theorem upsert_reconciliation_invariant :
    (∀ (store : List Insight) (shopId : String) (a : UpArgs),
      atMostOneActive store →
      (hasActiveB store shopId a.insight_type = true →
        upsert_insight store shopId a =
          .ok (store.map (fun i => if activeMatch shopId a.insight_type i
            then applyUpdate a i else i), 0)) ∧
      (hasActiveB store shopId a.insight_type = false →
        upsert_insight store shopId a = .ok (store ++ [newInsight shopId a], 1)) ∧
      (∀ store2 c, upsert_insight store shopId a = .ok (store2, c) →
        atMostOneActive store2)) ∧
    (∀ (shopId : String) (store : List Insight) (runs : List (GenData × Option Nat)),
      atMostOneActive store →
      atMostOneActive (runs.foldl
        (fun st r => (generate_insights shopId r.1 st r.2).2) store)) := by
  constructor
  · intro store shopId a h1
    refine ⟨upsert_found store shopId a h1, upsert_notfound store shopId a, ?_⟩
    intro store2 c h
    cases hact : hasActiveB store shopId a.insight_type with
    | true =>
      rw [upsert_found store shopId a h1 hact] at h
      simp only [Except.ok.injEq, Prod.mk.injEq] at h
      rw [← h.1]
      exact atMostOneActive_update store _ _ a h1
    | false =>
      rw [upsert_notfound store shopId a hact] at h
      simp only [Except.ok.injEq, Prod.mk.injEq] at h
      rw [← h.1]
      exact atMostOneActive_insert store shopId a h1 hact
  · intro shopId store runs h1
    induction runs generalizing store with
    | nil => exact h1
    | cons r rest ih => exact ih _ (inv_generate shopId r.1 store r.2 h1)

/-- Witness for C1: on the empty store the upsert inserts and the
invariant holds after a pass. -/
theorem upsert_reconciliation_invariant_witness :
    upsert_insight []
      "s" { insight_type := "trend_detection", severity := "low", title := "t",
            action_summary := "a", expected_uplift := none, confidence := 0.85,
            payload := [], admin_deep_link := none } =
      .ok ([newInsight "s"
        { insight_type := "trend_detection", severity := "low", title := "t",
          action_summary := "a", expected_uplift := none, confidence := 0.85,
          payload := [], admin_deep_link := none }], 1) :=
  ((upsert_reconciliation_invariant.1 [] "s"
    { insight_type := "trend_detection", severity := "low", title := "t",
      action_summary := "a", expected_uplift := none, confidence := 0.85,
      payload := [], admin_deep_link := none }
    (fun s t => by simp)).2.1) rfl

/-- C7: with no orders in the 30-day window, `generate_insights` returns
0 and leaves the store untouched, regardless of the product data and of
any injected failure. -/
theorem generate_insights_no_orders :
    ∀ (shopId : String) (d : GenData) (store : List Insight) (failAt : Option Nat),
      d.orders30 = [] → generate_insights shopId d store failAt = (0, store) := by
  intro shopId d store failAt h
  have hlen : d.orders30.length = 0 := by rw [h]; rfl
  by_cases h0 : stepFails failAt 0 = true
  · simp [generate_insights, h0]
  · simp [generate_insights, h0, hlen]

/-- C8: running `generate_insights` twice on the same data leaves the
store the same size as after the first run, and the second run reports
0 new insights. -/
theorem generate_insights_idempotent :
    ∀ (shopId : String) (d : GenData) (store : List Insight),
      atMostOneActive store →
      (generate_insights shopId d (generate_insights shopId d store none).2 none).1 = 0 ∧
      (generate_insights shopId d (generate_insights shopId d store none).2 none).2.length
        = (generate_insights shopId d store none).2.length := by
  intro shopId d store h1
  obtain ⟨hinv1, hmono1, hact1, -⟩ := generate_insights_none_run shopId d store h1
  obtain ⟨-, -, -, hrefresh2⟩ :=
    generate_insights_none_run shopId d (generate_insights shopId d store none).2 hinv1
  by_cases hlen : d.orders30.length = 0
  · have hr2 : generate_insights shopId d (generate_insights shopId d store none).2 none
        = (0, (generate_insights shopId d store none).2) := by
      simp [generate_insights, stepFails_none, hlen]
    rw [hr2]
    exact ⟨rfl, rfl⟩
  · exact hrefresh2 (fun a ha => hact1 hlen a ha)

/-- Witness for C7: a shop with products that would trigger the
inventory alert, but no orders in the window. -/
theorem generate_insights_no_orders_witness :
    generate_insights "s" zeroOrdersData [] none = (0, []) :=
  generate_insights_no_orders "s" zeroOrdersData [] none rfl

/-- Witness for C8 on `lowStockData` starting from the empty store. -/
theorem generate_insights_idempotent_witness :
    (generate_insights "s" lowStockData
        (generate_insights "s" lowStockData [] none).2 none).1 = 0 ∧
    (generate_insights "s" lowStockData
        (generate_insights "s" lowStockData [] none).2 none).2.length
      = (generate_insights "s" lowStockData [] none).2.length :=
  generate_insights_idempotent "s" lowStockData [] (fun s t => by simp)

/-- C9: the reconciliation lookup of `_upsert_insight` keys only on
`dismissed_at IS NULL` and never consults `expires_at`, so a candidate
of the type of an expired-but-undismissed row (inactive under
`is_active`) updates that row in place and returns 0 instead of
inserting a fresh active row. -/
theorem upsert_ignores_expires_at :
    ∀ (store : List Insight) (shopId : String) (a : UpArgs) (i : Insight) (now e : Int),
      atMostOneActive store → i ∈ store →
      i.shop_id = shopId → i.type = a.insight_type → i.dismissed_at = none →
      i.expires_at = some e → e < now →
      Insight.isActiveAt i now = false ∧
      upsert_insight store shopId a =
        .ok (store.map (fun j => if activeMatch shopId a.insight_type j
          then applyUpdate a j else j), 0) ∧
      (store.map (fun j => if activeMatch shopId a.insight_type j
        then applyUpdate a j else j)).length = store.length := by
  intro store shopId a i now e h1 hmem hshop hty hdis hexp hlt
  have hmatch : activeMatch shopId a.insight_type i = true := by
    unfold activeMatch
    rw [hshop, hty, hdis]
    simp
  have hact : hasActiveB store shopId a.insight_type = true :=
    List.any_eq_true.mpr ⟨i, hmem, hmatch⟩
  refine ⟨?_, upsert_found store shopId a h1 hact, List.length_map _ _⟩
  unfold Insight.isActiveAt
  rw [hdis, hexp]
  simp [hlt]

/-- Witness for C9: the expired `trend_detection` row is updated in
place by a fresh `trend_detection` candidate. -/
theorem upsert_ignores_expires_at_witness :
    Insight.isActiveAt expiredInsight 20 = false ∧
    upsert_insight [expiredInsight] "s" trendArgsEx =
      .ok ([expiredInsight].map (fun j => if activeMatch "s" trendArgsEx.insight_type j
        then applyUpdate trendArgsEx j else j), 0) ∧
    ([expiredInsight].map (fun j => if activeMatch "s" trendArgsEx.insight_type j
      then applyUpdate trendArgsEx j else j)).length = [expiredInsight].length :=
  upsert_ignores_expires_at [expiredInsight] "s" trendArgsEx expiredInsight 20 10
    (fun s t => le_trans (List.length_filter_le _ _) (by simp))
    (by simp) rfl rfl rfl rfl (by decide)

lemma runStage_cases (shopId : String) (st : Nat × List Insight) (cand : Option UpArgs) :
    (∃ st2, runStage shopId st cand = .ok st2 ∧ st.1 ≤ st2.1 ∧ st2.1 ≤ st.1 + 1)
    ∨ runStage shopId st cand = .error st := by
  cases cand with
  | none => exact Or.inl ⟨st, rfl, le_refl _, by omega⟩
  | some a =>
    cases hu : upsert_insight st.2 shopId a with
    | error e =>
      right
      simp only [runStage, hu]
    | ok pr =>
      obtain ⟨store2, c⟩ := pr
      have hc : c ≤ 1 := upsert_count_le _ _ _ _ _ hu
      exact Or.inl ⟨(st.1 + c, store2), by simp only [runStage, hu], by omega, by omega⟩

/-- C10: on every input (and under any injected failure) the count
returned by `generate_insights` is between 0 and 3: three analyzers,
each performing at most one upsert contributing 0 or 1. -/
theorem generate_insights_count_le_three :
    ∀ (shopId : String) (d : GenData) (store : List Insight) (failAt : Option Nat),
      (generate_insights shopId d store failAt).1 ≤ 3 := by
  intro shopId d store failAt
  by_cases h0 : stepFails failAt 0 = true
  · have hr : generate_insights shopId d store failAt = (0, store) := by
      simp [generate_insights, h0]
    rw [hr]
    exact Nat.zero_le 3
  by_cases hlen : d.orders30.length = 0
  · have hr : generate_insights shopId d store failAt = (0, store) := by
      simp [generate_insights, h0, hlen]
    rw [hr]
    exact Nat.zero_le 3
  by_cases hf1 : stepFails failAt 1 = true
  · have hr : generate_insights shopId d store failAt = (0, store) := by
      simp [generate_insights, h0, hlen, hf1]
    rw [hr]
    exact Nat.zero_le 3
  rcases runStage_cases shopId (0, store) (aovCandidate d) with ⟨s1, he1, hge1, hle1⟩ | he1
  · have hb1 : s1.1 ≤ 1 := hle1
    by_cases hf2 : stepFails failAt 2 = true
    · have hr : generate_insights shopId d store failAt = s1 := by
        simp [generate_insights, h0, hlen, hf1, he1, hf2]
      rw [hr]
      omega
    rcases runStage_cases shopId s1 (topProductCandidate d) with ⟨s2, he2, hge2, hle2⟩ | he2
    · by_cases hf3 : stepFails failAt 3 = true
      · have hr : generate_insights shopId d store failAt = s2 := by
          simp [generate_insights, h0, hlen, hf1, he1, hf2, he2, hf3]
        rw [hr]
        omega
      rcases runStage_cases shopId s2 (lowStockCandidate d) with ⟨s3, he3, hge3, hle3⟩ | he3
      · by_cases hf4 : stepFails failAt 4 = true
        · have hr : generate_insights shopId d store failAt = s3 := by
            simp [generate_insights, h0, hlen, hf1, he1, hf2, he2, hf3, he3, hf4]
          rw [hr]
          omega
        · have hr : generate_insights shopId d store failAt = s3 := by
            simp [generate_insights, h0, hlen, hf1, he1, hf2, he2, hf3, he3, hf4]
          rw [hr]
          omega
      · have hr : generate_insights shopId d store failAt = s2 := by
          simp [generate_insights, h0, hlen, hf1, he1, hf2, he2, hf3, he3]
        rw [hr]
        omega
    · have hr : generate_insights shopId d store failAt = s1 := by
        simp [generate_insights, h0, hlen, hf1, he1, hf2, he2]
      rw [hr]
      omega
  · have hr : generate_insights shopId d store failAt = (0, store) := by
      simp [generate_insights, h0, hlen, hf1, he1]
    rw [hr]
    exact Nat.zero_le 3

/-- C2 (amended): an exception at any step is caught at the orchestration
boundary and never propagated, and `generate_insights` returns the count
accumulated before the failure: never more than the count of the
uninterrupted run, and exactly 0 when the failure occurs before the
first upsert stage (the two stats queries), but possibly positive when a
later step throws. -/
theorem generate_insights_failure_partial_count :
    ∀ (shopId : String) (d : GenData) (store : List Insight) (k : Nat),
      (generate_insights shopId d store (some k)).1
        ≤ (generate_insights shopId d store none).1 ∧
      (k ≤ 1 → (generate_insights shopId d store (some k)).1 = 0) := by
  intro shopId d store k
  by_cases hlen : d.orders30.length = 0
  · have hrs : generate_insights shopId d store (some k) = (0, store) := by
      by_cases hk0 : stepFails (some k) 0 = true
      · simp [generate_insights, hk0]
      · simp [generate_insights, hk0, hlen]
    have hrn : generate_insights shopId d store none = (0, store) := by
      simp [generate_insights, stepFails_none, hlen]
    rw [hrs, hrn]
    exact ⟨le_refl _, fun _ => rfl⟩
  by_cases hk0 : k = 0
  · subst hk0
    have hrs : generate_insights shopId d store (some 0) = (0, store) := by
      simp [generate_insights, show stepFails (some 0) 0 = true from rfl]
    rw [hrs]
    exact ⟨Nat.zero_le _, fun _ => rfl⟩
  have hf0 : stepFails (some k) 0 = false := by
    rw [stepFails_some]
    exact decide_eq_false (by omega)
  by_cases hk1 : k = 1
  · subst hk1
    have hrs : generate_insights shopId d store (some 1) = (0, store) := by
      simp [generate_insights, hf0, hlen, show stepFails (some 1) 1 = true from rfl]
    rw [hrs]
    exact ⟨Nat.zero_le _, fun _ => rfl⟩
  have hf1 : stepFails (some k) 1 = false := by
    rw [stepFails_some]
    exact decide_eq_false (by omega)
  have hknot : ¬(k ≤ 1) := by omega
  refine ⟨?_, fun hk => absurd hk hknot⟩
  rcases runStage_cases shopId (0, store) (aovCandidate d) with ⟨s1, he1, hge1, hle1⟩ | he1
  · by_cases hk2 : k = 2
    · subst hk2
      have hrs : generate_insights shopId d store (some 2) = s1 := by
        simp [generate_insights, hf0, hlen, hf1, he1,
          show stepFails (some 2) 2 = true from rfl]
      rw [hrs]
      rcases runStage_cases shopId s1 (topProductCandidate d) with ⟨s2, he2, hge2, hle2⟩ | he2
      · rcases runStage_cases shopId s2 (lowStockCandidate d) with ⟨s3, he3, hge3, hle3⟩ | he3
        · have hrn : generate_insights shopId d store none = s3 := by
            simp [generate_insights, stepFails_none, hlen, he1, he2, he3]
          rw [hrn]
          omega
        · have hrn : generate_insights shopId d store none = s2 := by
            simp [generate_insights, stepFails_none, hlen, he1, he2, he3]
          rw [hrn]
          omega
      · have hrn : generate_insights shopId d store none = s1 := by
          simp [generate_insights, stepFails_none, hlen, he1, he2]
        rw [hrn]
    have hf2 : stepFails (some k) 2 = false := by
      rw [stepFails_some]
      exact decide_eq_false (by omega)
    rcases runStage_cases shopId s1 (topProductCandidate d) with ⟨s2, he2, hge2, hle2⟩ | he2
    · by_cases hk3 : k = 3
      · subst hk3
        have hrs : generate_insights shopId d store (some 3) = s2 := by
          simp [generate_insights, hf0, hlen, hf1, he1, hf2, he2,
            show stepFails (some 3) 3 = true from rfl]
        rw [hrs]
        rcases runStage_cases shopId s2 (lowStockCandidate d) with ⟨s3, he3, hge3, hle3⟩ | he3
        · have hrn : generate_insights shopId d store none = s3 := by
            simp [generate_insights, stepFails_none, hlen, he1, he2, he3]
          rw [hrn]
          omega
        · have hrn : generate_insights shopId d store none = s2 := by
            simp [generate_insights, stepFails_none, hlen, he1, he2, he3]
          rw [hrn]
      have hf3 : stepFails (some k) 3 = false := by
        rw [stepFails_some]
        exact decide_eq_false (by omega)
      rcases runStage_cases shopId s2 (lowStockCandidate d) with ⟨s3, he3, hge3, hle3⟩ | he3
      · have hrn : generate_insights shopId d store none = s3 := by
          simp [generate_insights, stepFails_none, hlen, he1, he2, he3]
        by_cases hk4 : k = 4
        · subst hk4
          have hrs : generate_insights shopId d store (some 4) = s3 := by
            simp [generate_insights, hf0, hlen, hf1, he1, hf2, he2, hf3, he3,
              show stepFails (some 4) 4 = true from rfl]
          rw [hrs, hrn]
        · have hf4 : stepFails (some k) 4 = false := by
            rw [stepFails_some]
            exact decide_eq_false (by omega)
          have hrs : generate_insights shopId d store (some k) = s3 := by
            simp [generate_insights, hf0, hlen, hf1, he1, hf2, he2, hf3, he3, hf4]
          rw [hrs, hrn]
      · have hrn : generate_insights shopId d store none = s2 := by
          simp [generate_insights, stepFails_none, hlen, he1, he2, he3]
        have hrs : generate_insights shopId d store (some k) = s2 := by
          simp [generate_insights, hf0, hlen, hf1, he1, hf2, he2, hf3, he3]
        rw [hrs, hrn]
    · have hrs : generate_insights shopId d store (some k) = s1 := by
        simp [generate_insights, hf0, hlen, hf1, he1, hf2, he2]
      have hrn : generate_insights shopId d store none = s1 := by
        simp [generate_insights, stepFails_none, hlen, he1, he2]
      rw [hrs, hrn]
  · have hrs : generate_insights shopId d store (some k) = (0, store) := by
      simp [generate_insights, hf0, hlen, hf1, he1]
    have hrn : generate_insights shopId d store none = (0, store) := by
      simp [generate_insights, stepFails_none, hlen, he1]
    rw [hrs, hrn]

unseal Rat.add Rat.mul Rat.inv Rat.sub Rat.ofScientific in
/-- C2 counterexample: on `lowStockData`, a run whose flush step throws
after the inventory-alert upsert succeeded returns 1, not 0. -/
theorem generate_insights_failure_counterexample :
    (generate_insights "s" lowStockData [] (some 4)).1 = 1 := by
  decide

/-- Witness for the amended C2: a failure injected at step 0 yields
count 0, bounded by the uninterrupted run's count. -/
theorem generate_insights_failure_partial_count_witness :
    (generate_insights "s" lowStockData [] (some 0)).1
      ≤ (generate_insights "s" lowStockData [] none).1 ∧
    (generate_insights "s" lowStockData [] (some 0)).1 = 0 :=
  ⟨(generate_insights_failure_partial_count "s" lowStockData [] 0).1,
   (generate_insights_failure_partial_count "s" lowStockData [] 0).2 (by decide)⟩

end ShopifyDash
